import Mathlib

/-!
Shallow embedding of `my_logging.py`: the `logger` decorator (its sink
adapter `_decorate` and the call `wrapper`) and the `get_currencies`
rate-fetch function, together with theorems settling the specification
claims about them.
-/

set_option autoImplicit false

namespace MyLogging

/-- A Python exception value: its type name (`type(e).__name__`), its message
(`str(e)`), its `__cause__` chain, and whether it is an instance of
`Exception` (as opposed to a bare `BaseException` such as
`KeyboardInterrupt`). -/
inductive PyExc : Type where
  | mk (kind : String) (msg : String) (cause : Option PyExc) (isException : Bool)

def PyExc.kind : PyExc → String
  | .mk k _ _ _ => k

def PyExc.msg : PyExc → String
  | .mk _ m _ _ => m

def PyExc.cause : PyExc → Option PyExc
  | .mk _ _ c _ => c

def PyExc.isException : PyExc → Bool
  | .mk _ _ _ b => b

/-- The dynamic capabilities of the `handle` argument of `logger`:
whether `isinstance(handle, logging.Logger)` holds, and whether the object
has a `write` attribute (a stream such as `sys.stdout` or `io.StringIO`). -/
structure Handle : Type where
  isLogger : Bool
  hasWrite : Bool

/-- One observable emission on the bound sink: a call to `handle.info`,
to `handle.error`, or to `handle.write`. -/
inductive LogEvent : Type where
  | loggerInfo (msg : String)
  | loggerError (msg : String)
  | write (text : String)
deriving DecidableEq

/-- The `AttributeError` raised by CPython when `handle.write` is looked up
on an object with neither a `write` method nor `Logger` status (the exact
CPython message also names the object's type; the model keeps a fixed text). -/
def writeAttrError : PyExc :=
  .mk "AttributeError" "object has no attribute write" none true

/-- The events `info(msg)` produces on a capable handle: `handle.info(msg)`
for a `logging.Logger`, else `handle.write("INFO: " + msg + "\n")`
(source lines 37-42). -/
def infoEvents (h : Handle) (m : String) : List LogEvent :=
  if h.isLogger then [.loggerInfo m] else [.write ("INFO: " ++ m ++ "\n")]

/-- The events `error(msg)` produces on a capable handle: `handle.error(msg)`
for a `logging.Logger`, else `handle.write("ERROR: " + msg + "\n")`
(source lines 37-45). -/
def errorEvents (h : Handle) (m : String) : List LogEvent :=
  if h.isLogger then [.loggerError m] else [.write ("ERROR: " ++ m ++ "\n")]

/-- The `info` closure bound by `_decorate`: succeeds with its emissions on a
capable handle; on a handle with neither capability the `handle.write`
attribute lookup raises `AttributeError` and nothing is emitted. -/
def emitInfo (h : Handle) (m : String) : Except PyExc (List LogEvent) :=
  if h.isLogger then .ok [.loggerInfo m]
  else if h.hasWrite then .ok [.write ("INFO: " ++ m ++ "\n")]
  else .error writeAttrError

/-- The `error` closure bound by `_decorate`, analogous to `emitInfo`. -/
def emitError (h : Handle) (m : String) : Except PyExc (List LogEvent) :=
  if h.isLogger then .ok [.loggerError m]
  else if h.hasWrite then .ok [.write ("ERROR: " ++ m ++ "\n")]
  else .error writeAttrError

/-- The handle satisfies one of the two supported sink capabilities. -/
def HandleValid (h : Handle) : Prop :=
  h.isLogger = true ∨ h.hasWrite = true

/-- A target callable: its `__name__`, its behavior on an input (normal
return or raised exception), and the textual renderings the wrapper
interpolates into its f-strings (`str(args)`, `str(kwargs)`,
`repr(result)`). The wrapper treats the target as a black box. -/
structure Target (α β : Type) : Type where
  name : String
  call : α → Except PyExc β
  reprArgs : α → String
  reprKwargs : α → String
  reprResult : β → String

variable {α β : Type}

/-- `f"Calling {fn.__name__} with args={args}, kwargs={kwargs}"` (line 50). -/
def startMsg (t : Target α β) (x : α) : String :=
  "Calling " ++ t.name ++ " with args=" ++ t.reprArgs x ++ ", kwargs=" ++ t.reprKwargs x

/-- `f"{fn.__name__} returned {result!r}"` (line 54). -/
def successMsg (t : Target α β) (r : β) : String :=
  t.name ++ " returned " ++ t.reprResult r

/-- `f"Function {fn.__name__} raised {type(e).__name__}: {e}"` (line 58). -/
def errorMsg (t : Target α β) (e : PyExc) : String :=
  "Function " ++ t.name ++ " raised " ++ e.kind ++ ": " ++ e.msg

/-- The `wrapper` closure (source lines 48-59): log the start, invoke the
target inside `try`, log the result and return it on success; on an
`Exception` log the error and re-raise the same object; a failure that is
not an `Exception` instance propagates uncaught.  The returned pair is the
call's outcome together with the list of sink emissions, in order.  Note
that the success-path `info` call sits inside the `try`, so its own failure
(possible only on an incapable handle) would be caught like a target
failure, exactly as in the source. -/
def wrapper (h : Handle) (t : Target α β) (x : α) :
    Except PyExc β × List LogEvent :=
  match emitInfo h (startMsg t x) with
  | .error e0 => (.error e0, [])
  | .ok startLog =>
    match t.call x with
    | .ok result =>
      match emitInfo h (successMsg t result) with
      | .ok okLog => (.ok result, startLog ++ okLog)
      | .error e1 =>
        if e1.isException then
          match emitError h (errorMsg t e1) with
          | .ok errLog => (.error e1, startLog ++ errLog)
          | .error e2 => (.error e2, startLog)
        else (.error e1, startLog)
    | .error e =>
      if e.isException then
        match emitError h (errorMsg t e) with
        | .ok errLog => (.error e, startLog ++ errLog)
        | .error e2 => (.error e2, startLog)
      else (.error e, startLog)

/-- `_decorate` (source lines 35-61): binds the sink adapter by a one-time
`isinstance` check and returns the wrapper.  It performs no capability
validation beyond that check, so it never raises: the result is always a
successfully built callable. -/
def decorate (h : Handle) (t : Target α β) :
    Except PyExc (α → Except PyExc β × List LogEvent) :=
  .ok (fun x => wrapper h t x)

/-- `sys.stdout`, the default `handle` (line 12): a writable stream,
not a `logging.Logger`. -/
def sysStdout : Handle := ⟨false, true⟩

/-- `@logger` used bare: `logger(func)` with `handle` defaulting to
`sys.stdout`, which runs `_decorate(func)` (lines 12, 64-66). -/
def loggerBare (t : Target α β) :
    Except PyExc (α → Except PyExc β × List LogEvent) :=
  decorate sysStdout t

/-- `@logger(handle=h)`: `logger(None, handle=h)` returns `_decorate`,
which is then applied to the function (lines 12, 64-65). -/
def loggerWithHandle (h : Handle) (t : Target α β) :
    Except PyExc (α → Except PyExc β × List LogEvent) :=
  decorate h t

/-- A primitive Python value as it occurs in the parsed rate payload. A
Python `float` is modelled by a rational: `get_currencies` performs no
arithmetic on rates beyond the `float(value)` conversion, so the exact
numeric carrier is irrelevant to control flow. -/
inductive PyVal : Type where
  | int (n : Int)
  | bool (b : Bool)
  | float (q : ℚ)
  | str (s : String)
  | none

/-- A parsed JSON value: a primitive or an object (an association list in
insertion order, matching Python's ordered dicts). -/
inductive Js : Type where
  | prim (v : PyVal)
  | obj (fields : List (String × Js))

/-- Python dict key lookup on an association list (first match). -/
def jsLookup : List (String × Js) → String → Option Js
  | [], _ => Option.none
  | (k, v) :: rest, key => if k = key then some v else jsLookup rest key

/-- `isinstance(value, (int, float))` on the looked-up `"Value"` field.
`bool` is a subclass of `int` in Python, so booleans pass the check; an
absent field (`.get` returned `None`) and every other shape fail it. -/
def pyNumeric : Option Js → Bool
  | some (.prim (.int _)) => true
  | some (.prim (.bool _)) => true
  | some (.prim (.float _)) => true
  | _ => false

/-- `float(value)` for a value that passed the numeric check; `True` and
`False` convert to `1.0` and `0.0`. The catch-all is unreachable under
`pyNumeric`. -/
def pyFloatOf : Option Js → ℚ
  | some (.prim (.int n)) => (n : ℚ)
  | some (.prim (.bool b)) => if b then 1 else 0
  | some (.prim (.float q)) => q
  | _ => 0

/-- `repr(value)` as interpolated into the `TypeError` message. Python's
repr of a float and of a dict are abbreviated here: both branches are only
reachable for values the claims never render (a float is numeric, so its
repr never reaches the message). -/
def pyReprOf : Option Js → String
  | Option.none => "None"
  | some (.prim (.int n)) => toString n
  | some (.prim (.bool b)) => if b then "True" else "False"
  | some (.prim (.float q)) => toString q
  | some (.prim (.str s)) => "'" ++ s ++ "'"
  | some (.prim .none) => "None"
  | some (.obj _) => "\x7b...\x7d"

/-- The outcome of the HTTP layer that `get_currencies` consumes:
either `requests.get`/`raise_for_status` raised a `RequestException`, or a
response arrived and `response.json()` either raised (invalid JSON) or
produced a payload. The model covers JSON-object payloads, the shape the
API and every test produce. -/
inductive HttpOutcome : Type where
  | requestError (e : PyExc)
  | response (body : Except PyExc (List (String × Js)))

/-- The `for code in currency_codes` loop of `get_currencies` (source lines
103-115): for each requested code, membership in `valute`, then
`valute[code].get("Value")`, the numeric check, and `float(value)`; the
result dict is built in iteration order.  A non-dict `valute` makes the
`in` test raise (`TypeError` in CPython for non-containers; a string-valued
`valute`, whose `in` is a substring test, is outside the model), and a
non-dict entry makes the `.get` lookup raise `AttributeError` — both
unreachable from well-formed payloads. -/
def ratesLoop (valute : Js) : List String → Except PyExc (List (String × ℚ))
  | [] => .ok []
  | code :: rest =>
    match valute with
    | .prim _ => .error (.mk "TypeError" "argument is not iterable" Option.none true)
    | .obj fs =>
      match jsLookup fs code with
      | Option.none =>
        .error (.mk "KeyError" ("Валюта '" ++ code ++ "' отсутствует в данных API")
          Option.none true)
      | some entry =>
        match entry with
        | .prim _ =>
          .error (.mk "AttributeError" "object has no attribute get" Option.none true)
        | .obj efs =>
          let value := jsLookup efs "Value"
          if pyNumeric value then
            match ratesLoop valute rest with
            | .ok tail => .ok ((code, pyFloatOf value) :: tail)
            | .error e => .error e
          else
            .error (.mk "TypeError"
              ("Валюта '" ++ code ++ "' имеет нечисловой тип: " ++ pyReprOf value)
              Option.none true)

/-- `get_currencies` (source lines 69-115): a `RequestException` becomes
`ConnectionError("Ошибка при запросе к API: " + str(e))` chained `from e`;
a `response.json()` failure becomes `ValueError("Некорректный JSON в ответе
API")` chained `from e`; a payload without `"Valute"` raises `KeyError`;
otherwise the per-code loop runs. -/
def get_currencies (currency_codes : List String) (resp : HttpOutcome) :
    Except PyExc (List (String × ℚ)) :=
  match resp with
  | .requestError e =>
    .error (.mk "ConnectionError" ("Ошибка при запросе к API: " ++ e.msg) (some e) true)
  | .response body =>
    match body with
    | .error e =>
      .error (.mk "ValueError" "Некорректный JSON в ответе API" (some e) true)
    | .ok data =>
      match jsLookup data "Valute" with
      | Option.none =>
        .error (.mk "KeyError" "В ответе JSON отсутствует ключ \"Valute\"" Option.none true)
      | some valute => ratesLoop valute currency_codes

/-! ### Concrete sinks, targets and payloads used in witnesses -/

/-- A `logging.Logger` handle (such as `currency_file_logger`). -/
def loggerHandle : Handle := ⟨true, false⟩

/-- A value with neither `Logger` status nor a `write` attribute. -/
def invalidHandle : Handle := ⟨false, false⟩

/-- The test target `def f(x): return x` of `test_logs_success_in_stringio`. -/
def idTarget : Target Int Int where
  name := "f"
  call := fun x => .ok x
  reprArgs := fun x => "(" ++ toString x ++ ",)"
  reprKwargs := fun _ => "\x7b\x7d"
  reprResult := fun r => toString r

/-- The `ValueError("test")` of `test_logs_error_and_re_raises`. -/
def valueErr : PyExc := .mk "ValueError" "test" Option.none true

/-- The test target `def bad(): raise ValueError("test")`. -/
def badTarget : Target Unit Unit where
  name := "bad"
  call := fun _ => .error valueErr
  reprArgs := fun _ => "()"
  reprKwargs := fun _ => "\x7b\x7d"
  reprResult := fun _ => "None"

/-- A `KeyboardInterrupt`: a `BaseException` that is not an `Exception`. -/
def kbExc : PyExc := .mk "KeyboardInterrupt" "" Option.none false

/-- A target whose body raises `KeyboardInterrupt`. -/
def kbTarget : Target Unit Unit where
  name := "kb"
  call := fun _ => .error kbExc
  reprArgs := fun _ => "()"
  reprKwargs := fun _ => "\x7b\x7d"
  reprResult := fun _ => "None"

/-- The `{"USD": {"Value": 80.0}}` entry of `test_returns_correct_data`. -/
def usdEntry : Js := .obj [("Value", .prim (.float 80))]

/-- The payload `{"Valute": {"USD": {"Value": 80.0}}}`. -/
def cbrData : List (String × Js) := [("Valute", .obj [("USD", usdEntry)])]

/-- A payload whose `USD` rate field holds a Python boolean. -/
def boolData (b : Bool) : List (String × Js) :=
  [("Valute", .obj [("USD", .obj [("Value", .prim (.bool b))])])]

/-- Content equivalence of single emissions across the two sink shapes: a
leveled-logger info/error call carries the same message as the writer
emission that differs from it only by the `"INFO: "`/`"ERROR: "` prefix and
the trailing newline. -/
inductive ContentEq : LogEvent → LogEvent → Prop where
  | info (m : String) : ContentEq (.loggerInfo m) (.write ("INFO: " ++ m ++ "\n"))
  | err (m : String) : ContentEq (.loggerError m) (.write ("ERROR: " ++ m ++ "\n"))

/-- The requested code has a dict entry in `Valute` whose `"Value"` field
passes the numeric check — the per-code success precondition of the loop. -/
def GoodCode (fs : List (String × Js)) (c : String) : Prop :=
  ∃ efs, jsLookup fs c = some (.obj efs) ∧ pyNumeric (jsLookup efs "Value") = true

/-- The rate the loop stores for a good code: `float(valute[code].get("Value"))`. -/
def rateOf (fs : List (String × Js)) (c : String) : ℚ :=
  match jsLookup fs c with
  | some (.obj efs) => pyFloatOf (jsLookup efs "Value")
  | _ => 0

/-! ### Helper lemmas about the sink adapter and the wrapper -/

theorem emitInfo_valid (h : Handle) (m : String) (hv : HandleValid h) :
    emitInfo h m = .ok (infoEvents h m) := by
  rcases hv with hl | hw
  · simp [emitInfo, infoEvents, hl]
  · cases hb : h.isLogger <;> simp [emitInfo, infoEvents, hb, hw]

theorem emitError_valid (h : Handle) (m : String) (hv : HandleValid h) :
    emitError h m = .ok (errorEvents h m) := by
  rcases hv with hl | hw
  · simp [emitError, errorEvents, hl]
  · cases hb : h.isLogger <;> simp [emitError, errorEvents, hb, hw]

theorem infoEvents_length (h : Handle) (m : String) :
    (infoEvents h m).length = 1 := by
  unfold infoEvents; split <;> rfl

theorem errorEvents_length (h : Handle) (m : String) :
    (errorEvents h m).length = 1 := by
  unfold errorEvents; split <;> rfl

variable {α β : Type}

theorem wrapper_ok (h : Handle) (t : Target α β) (x : α) (r : β)
    (hv : HandleValid h) (hr : t.call x = .ok r) :
    wrapper h t x =
      (.ok r, infoEvents h (startMsg t x) ++ infoEvents h (successMsg t r)) := by
  unfold wrapper
  rw [emitInfo_valid _ _ hv, hr]
  simp only [emitInfo_valid _ _ hv]

theorem wrapper_raise (h : Handle) (t : Target α β) (x : α) (e : PyExc)
    (hv : HandleValid h) (hr : t.call x = .error e) (he : e.isException = true) :
    wrapper h t x =
      (.error e, infoEvents h (startMsg t x) ++ errorEvents h (errorMsg t e)) := by
  unfold wrapper
  rw [emitInfo_valid _ _ hv, hr]
  simp only [he, if_true, emitError_valid _ _ hv]

theorem wrapper_raise_base (h : Handle) (t : Target α β) (x : α) (e : PyExc)
    (hv : HandleValid h) (hr : t.call x = .error e) (he : e.isException = false) :
    wrapper h t x = (.error e, infoEvents h (startMsg t x)) := by
  unfold wrapper
  rw [emitInfo_valid _ _ hv, hr]
  simp only [he, Bool.false_eq_true, if_false]

/-! ### Claim theorems -/

/-- C1: transparency on success.  For every target callable `t` and input
`x` on which the target returns `r` (and a sink satisfying one of the two
supported capabilities, as every sink accepted by the spec does), the
wrapped callable returns exactly `r` — the same value of the same type. -/
theorem C1_transparency_on_success (h : Handle) (t : Target α β) (x : α)
    (r : β) (hv : HandleValid h) (hr : t.call x = .ok r) :
    (wrapper h t x).1 = .ok r := by
  rw [wrapper_ok h t x r hv hr]

/-- C1 witness: wrapping `f(x) = x` with the default stdout sink and calling
it with `42` returns `42` (Scenario A). -/
theorem C1_witness :
    HandleValid sysStdout ∧ idTarget.call 42 = .ok 42 ∧
      (wrapper sysStdout idTarget 42).1 = .ok 42 :=
  ⟨Or.inr rfl, rfl, C1_transparency_on_success sysStdout idTarget 42 42 (Or.inr rfl) rfl⟩

/-- C2: exception transparency.  When the target raises `e`, the wrapped
callable raises the very same exception object `e` — hence the same kind,
the same message and the same cause chain; the wrapper never substitutes,
wraps, or suppresses it.  This holds for every raised failure, whether or
not it derives from `Exception`. -/
theorem C2_exception_transparency (h : Handle) (t : Target α β) (x : α)
    (e : PyExc) (hv : HandleValid h) (hr : t.call x = .error e) :
    (wrapper h t x).1 = .error e := by
  cases he : e.isException
  · rw [wrapper_raise_base h t x e hv hr he]
  · rw [wrapper_raise h t x e hv hr he]

/-- C2 witness: `bad()` raising `ValueError("test")` wrapped over a
`StringIO`-like writer re-raises exactly that exception (Scenario B). -/
theorem C2_witness :
    HandleValid sysStdout ∧ badTarget.call () = .error valueErr ∧
      (wrapper sysStdout badTarget ()).1 = .error valueErr :=
  ⟨Or.inr rfl, rfl, C2_exception_transparency sysStdout badTarget () valueErr (Or.inr rfl) rfl⟩

/-- C3 counterexample: the record-emission invariant as stated fails on a
target that raises a failure not derived from `Exception`.  Wrapping a
`KeyboardInterrupt`-raising target over the stdout writer emits exactly one
record — the start record — and no success or error record at all, while
the claim demands exactly one outcome record for every invocation whose
target returns or raises. -/
theorem C3_counterexample :
    wrapper sysStdout kbTarget () =
      (.error kbExc, [.write "INFO: Calling kb with args=(), kwargs=\x7b\x7d\n"]) ∧
    (wrapper sysStdout kbTarget ()).2.length = 1 ∧
    (wrapper sysStdout kbTarget ()).2.countP (fun ev =>
      match ev with
      | .loggerError _ => true
      | .write s => "ERROR: ".data.isPrefixOf s.data
      | _ => false) = 0 := by
  refine ⟨rfl, rfl, ?_⟩
  decide

/-- C3 amended: for every invocation of a wrapped callable (over a capable
sink) whose target either returns normally or raises an `Exception`-derived
failure, exactly one start record is emitted before the target is invoked
and exactly one matching outcome record (success on return, error on raise)
after it, in that order, none skipped or duplicated; a failure not derived
from `Exception` leaves the start record as the only emission. -/
theorem C3_record_emission (h : Handle) (t : Target α β) (x : α)
    (hv : HandleValid h) :
    (∀ r : β, t.call x = .ok r →
      (wrapper h t x).2 =
        infoEvents h (startMsg t x) ++ infoEvents h (successMsg t r)) ∧
    (∀ e : PyExc, t.call x = .error e → e.isException = true →
      (wrapper h t x).2 =
        infoEvents h (startMsg t x) ++ errorEvents h (errorMsg t e)) ∧
    (∀ e : PyExc, t.call x = .error e → e.isException = false →
      (wrapper h t x).2 = infoEvents h (startMsg t x)) ∧
    (∀ m : String, (infoEvents h m).length = 1 ∧ (errorEvents h m).length = 1) := by
  refine ⟨?_, ?_, ?_, ?_⟩
  · intro r hr; rw [wrapper_ok h t x r hv hr]
  · intro e hr he; rw [wrapper_raise h t x e hv hr he]
  · intro e hr he; rw [wrapper_raise_base h t x e hv hr he]
  · intro m; exact ⟨infoEvents_length h m, errorEvents_length h m⟩

/-- C3 witness: for the succeeding target of Scenario A over the stdout
writer, the log is the start record followed by the success record. -/
theorem C3_record_emission_witness :
    (wrapper sysStdout idTarget 42).2 =
      infoEvents sysStdout (startMsg idTarget 42) ++
        infoEvents sysStdout (successMsg idTarget 42) :=
  (C3_record_emission sysStdout idTarget 42 (Or.inr rfl)).1 42 rfl

/-- C4 counterexample: a sink with neither the `info`/`error` capability nor
a `write` attribute is *not* rejected at wrap time — `_decorate` succeeds
and hands back a wrapper.  The misconfiguration surfaces only at call time:
the first `info` call raises `AttributeError` before any record is emitted
and before the target runs. -/
theorem C4_counterexample :
    decorate invalidHandle idTarget =
      .ok (fun x => wrapper invalidHandle idTarget x) ∧
    wrapper invalidHandle idTarget 0 = (.error writeAttrError, []) :=
  ⟨rfl, rfl⟩

/-- C4 amended: wrapping with a sink satisfying neither capability succeeds
without any configuration error; every call of the resulting wrapper then
raises `AttributeError` when the start record's `handle.write` lookup
fails, with no record emitted and the target never invoked — the
misconfiguration is surfaced at call time, never silently no-opped. -/
theorem C4_call_time_rejection (h : Handle) (t : Target α β) (x : α)
    (hl : h.isLogger = false) (hw : h.hasWrite = false) :
    decorate h t = .ok (fun y => wrapper h t y) ∧
    wrapper h t x = (.error writeAttrError, []) := by
  refine ⟨rfl, ?_⟩
  unfold wrapper
  simp [emitInfo, hl, hw]

/-- C4 witness: the amended behavior at the concrete incapable sink. -/
theorem C4_call_time_rejection_witness :
    decorate invalidHandle badTarget = .ok (fun y => wrapper invalidHandle badTarget y) ∧
    wrapper invalidHandle badTarget () = (.error writeAttrError, []) :=
  C4_call_time_rejection invalidHandle badTarget () rfl rfl

/-- C5: sink adapter normalization.  On a leveled-logger sink, `recordInfo`
and `recordError` forward the message verbatim to `sink.info` / `sink.error`
with no added tag; on a writer sink they perform exactly one
`sink.write("INFO: " + msg + "\n")` / `sink.write("ERROR: " + msg + "\n")`
and nothing else — each emission list is that single call. -/
theorem C5_sink_adapter_normalization (h : Handle) (m : String) :
    (h.isLogger = true →
      emitInfo h m = .ok [.loggerInfo m] ∧ emitError h m = .ok [.loggerError m]) ∧
    (h.isLogger = false → h.hasWrite = true →
      emitInfo h m = .ok [.write ("INFO: " ++ m ++ "\n")] ∧
      emitError h m = .ok [.write ("ERROR: " ++ m ++ "\n")]) := by
  constructor
  · intro hl
    constructor <;> simp [emitInfo, emitError, hl]
  · intro hl hw
    constructor <;> simp [emitInfo, emitError, hl, hw]

/-- C5 witness: both branches at concrete sinks and a concrete message. -/
theorem C5_witness :
    (emitInfo loggerHandle "m" = .ok [.loggerInfo "m"] ∧
      emitError loggerHandle "m" = .ok [.loggerError "m"]) ∧
    (emitInfo sysStdout "m" = .ok [.write ("INFO: " ++ "m" ++ "\n")] ∧
      emitError sysStdout "m" = .ok [.write ("ERROR: " ++ "m" ++ "\n")]) :=
  ⟨(C5_sink_adapter_normalization loggerHandle "m").1 rfl,
   (C5_sink_adapter_normalization sysStdout "m").2 rfl rfl⟩

/-- C6: sink polymorphism.  The same wrapper bound to a leveled-logger sink
and to a writer sink produces the same call outcome and emission lists of
the same length whose corresponding records carry identical messages (same
target name, args, result or error kind and message), differing only in the
`"INFO: "`/`"ERROR: "` prefix and trailing newline of the writer variant. -/
theorem C6_sink_polymorphism (hl hw : Handle) (t : Target α β) (x : α)
    (h1 : hl.isLogger = true) (h2 : hw.isLogger = false)
    (h3 : hw.hasWrite = true) :
    (wrapper hl t x).1 = (wrapper hw t x).1 ∧
    List.Forall₂ ContentEq (wrapper hl t x).2 (wrapper hw t x).2 := by
  have v1 : HandleValid hl := Or.inl h1
  have v2 : HandleValid hw := Or.inr h3
  cases hc : t.call x with
  | ok r =>
    rw [wrapper_ok hl t x r v1 hc, wrapper_ok hw t x r v2 hc]
    refine ⟨rfl, ?_⟩
    simp only [infoEvents, h1, h2, if_true, Bool.false_eq_true, if_false,
      List.cons_append, List.nil_append]
    exact .cons (.info _) (.cons (.info _) .nil)
  | error e =>
    cases he : e.isException
    · rw [wrapper_raise_base hl t x e v1 hc he, wrapper_raise_base hw t x e v2 hc he]
      refine ⟨rfl, ?_⟩
      simp only [infoEvents, h1, h2, if_true, Bool.false_eq_true, if_false]
      exact .cons (.info _) .nil
    · rw [wrapper_raise hl t x e v1 hc he, wrapper_raise hw t x e v2 hc he]
      refine ⟨rfl, ?_⟩
      simp only [infoEvents, errorEvents, h1, h2, if_true, Bool.false_eq_true, if_false,
        List.cons_append, List.nil_append]
      exact .cons (.info _) (.cons (.err _) .nil)

/-- C6 witness: Scenario A's target over a logger sink versus the stdout
writer sink. -/
theorem C6_witness :
    (wrapper loggerHandle idTarget 42).1 = (wrapper sysStdout idTarget 42).1 ∧
    List.Forall₂ ContentEq (wrapper loggerHandle idTarget 42).2
      (wrapper sysStdout idTarget 42).2 :=
  C6_sink_polymorphism loggerHandle sysStdout idTarget 42 rfl rfl rfl

/-- C7: default-sink equivalence.  `@logger` with no explicit `handle` binds
`sys.stdout` — a writer, not a `Logger` — and the wrapped callable it
produces is the very one produced by wrapping with that writer sink
explicitly; accordingly every record it emits is a single `write` call. -/
theorem C7_default_sink (t : Target α β) (x : α) (ev : LogEvent)
    (hm : ev ∈ (wrapper sysStdout t x).2) :
    loggerBare t = loggerWithHandle sysStdout t ∧
    sysStdout.isLogger = false ∧ sysStdout.hasWrite = true ∧
    ∃ s, ev = .write s := by
  refine ⟨rfl, rfl, rfl, ?_⟩
  have hv : HandleValid sysStdout := Or.inr rfl
  cases hc : t.call x with
  | ok r =>
    rw [wrapper_ok sysStdout t x r hv hc] at hm
    simp only [infoEvents, sysStdout, Bool.false_eq_true, if_false, List.cons_append,
      List.nil_append, List.mem_cons, List.mem_singleton, List.not_mem_nil] at hm
    rcases hm with hm | hm | hm
    · exact ⟨_, hm⟩
    · exact ⟨_, hm⟩
    · exact absurd hm (by simp)
  | error e =>
    cases he : e.isException
    · rw [wrapper_raise_base sysStdout t x e hv hc he] at hm
      simp only [infoEvents, sysStdout, Bool.false_eq_true, if_false,
        List.mem_singleton] at hm
      exact ⟨_, hm⟩
    · rw [wrapper_raise sysStdout t x e hv hc he] at hm
      simp only [infoEvents, errorEvents, sysStdout, Bool.false_eq_true, if_false,
        List.cons_append, List.nil_append, List.mem_cons, List.mem_singleton,
        List.not_mem_nil] at hm
      rcases hm with hm | hm | hm
      · exact ⟨_, hm⟩
      · exact ⟨_, hm⟩
      · exact absurd hm (by simp)

/-- C7 witness: the failing target of Scenario B, at its error record. -/
theorem C7_witness :
    loggerBare badTarget = loggerWithHandle sysStdout badTarget ∧
    sysStdout.isLogger = false ∧ sysStdout.hasWrite = true ∧
    ∃ s, LogEvent.write "ERROR: Function bad raised ValueError: test\n" = .write s :=
  C7_default_sink badTarget () (.write "ERROR: Function bad raised ValueError: test\n")
    (by decide)

/-! ### Helper lemmas about the rate loop -/

theorem ratesLoop_ok (fs : List (String × Js)) (codes : List String)
    (hall : ∀ c ∈ codes, GoodCode fs c) :
    ratesLoop (.obj fs) codes = .ok (codes.map fun c => (c, rateOf fs c)) := by
  induction codes with
  | nil => rfl
  | cons c rest ih =>
    obtain ⟨efs, he, hn⟩ := hall c (List.mem_cons_self c rest)
    have hrest := ih fun d hd => hall d (List.mem_cons_of_mem c hd)
    simp only [ratesLoop, he, hn, if_true, hrest, List.map_cons, rateOf]

theorem ratesLoop_prim (v : PyVal) (codes : List String)
    (m : List (String × ℚ)) (hm : ratesLoop (.prim v) codes = .ok m) :
    codes = [] ∧ m = [] := by
  cases codes with
  | nil =>
    refine ⟨rfl, ?_⟩
    simp only [ratesLoop, Except.ok.injEq] at hm
    exact hm.symm
  | cons c rest => exact absurd hm (by simp [ratesLoop])

theorem ratesLoop_eq (fs : List (String × Js)) (codes : List String) :
    ∀ m : List (String × ℚ), ratesLoop (.obj fs) codes = .ok m →
      m = codes.map fun c => (c, rateOf fs c) := by
  induction codes with
  | nil =>
    intro m hm
    simp only [ratesLoop, Except.ok.injEq] at hm
    simp [← hm]
  | cons c rest ih =>
    intro m hm
    simp only [ratesLoop] at hm
    rcases hlook : jsLookup fs c with _ | entry
    · rw [hlook] at hm
      exact absurd hm (by simp)
    · rw [hlook] at hm
      rcases entry with v | efs
      · exact absurd hm (by simp)
      · rcases hnum : pyNumeric (jsLookup efs "Value") with _ | _
        · simp [hnum] at hm
        · simp only [hnum, if_true] at hm
          rcases hrec : ratesLoop (.obj fs) rest with tail | err
          · rw [hrec] at hm
            exact absurd hm (by simp)
          · rw [hrec] at hm
            simp only [Except.ok.injEq] at hm
            subst hm
            simp only [List.map_cons, List.cons.injEq]
            refine ⟨?_, ih err hrec⟩
            simp [rateOf, hlook]

theorem get_currencies_keys (codes : List String) (resp : HttpOutcome)
    (m : List (String × ℚ)) (hm : get_currencies codes resp = .ok m) :
    m.map Prod.fst = codes := by
  cases resp with
  | requestError e => exact absurd hm (by simp [get_currencies])
  | response body =>
    cases body with
    | error e => exact absurd hm (by simp [get_currencies])
    | ok data =>
      simp only [get_currencies] at hm
      rcases hval : jsLookup data "Valute" with _ | valute
      · rw [hval] at hm
        exact absurd hm (by simp)
      · rw [hval] at hm
        rcases valute with v | fs
        · obtain ⟨hc, hmn⟩ := ratesLoop_prim v codes m hm
          simp [hc, hmn]
        · rw [ratesLoop_eq fs codes m hm]
          simp [List.map_map, Function.comp_def]

/-! ### Claim theorems on `get_currencies` -/

/-- C8: the rate-fetch failure taxonomy.  A failed HTTP request yields
`ConnectionError` (chained from the request failure); an unparseable
response yields `ValueError`; a payload without the `"Valute"` field yields
`KeyError`; a requested code absent from `Valute` yields `KeyError`; a
non-numeric rate value yields `TypeError`; and when every requested code is
present with a numeric value, the call returns the mapping from each
requested code to its numeric rate. -/
theorem C8_failure_taxonomy (codes rest : List String) (code : String)
    (e : PyExc) (data fs efs : List (String × Js)) :
    (get_currencies codes (.requestError e) =
      .error (.mk "ConnectionError" ("Ошибка при запросе к API: " ++ e.msg)
        (some e) true)) ∧
    (get_currencies codes (.response (.error e)) =
      .error (.mk "ValueError" "Некорректный JSON в ответе API" (some e) true)) ∧
    (jsLookup data "Valute" = Option.none →
      get_currencies codes (.response (.ok data)) =
        .error (.mk "KeyError" "В ответе JSON отсутствует ключ \"Valute\""
          Option.none true)) ∧
    (jsLookup data "Valute" = some (.obj fs) → jsLookup fs code = Option.none →
      get_currencies (code :: rest) (.response (.ok data)) =
        .error (.mk "KeyError" ("Валюта '" ++ code ++ "' отсутствует в данных API")
          Option.none true)) ∧
    (jsLookup data "Valute" = some (.obj fs) →
      jsLookup fs code = some (.obj efs) →
      pyNumeric (jsLookup efs "Value") = false →
      get_currencies (code :: rest) (.response (.ok data)) =
        .error (.mk "TypeError"
          ("Валюта '" ++ code ++ "' имеет нечисловой тип: " ++
            pyReprOf (jsLookup efs "Value"))
          Option.none true)) ∧
    (jsLookup data "Valute" = some (.obj fs) → (∀ c ∈ codes, GoodCode fs c) →
      get_currencies codes (.response (.ok data)) =
        .ok (codes.map fun c => (c, rateOf fs c))) := by
  refine ⟨rfl, rfl, ?_, ?_, ?_, ?_⟩
  · intro h3
    simp [get_currencies, h3]
  · intro hval hcode
    simp [get_currencies, hval, ratesLoop, hcode]
  · intro hval hent hnum
    simp [get_currencies, hval, ratesLoop, hent, hnum]
  · intro hval hall
    simp only [get_currencies, hval]
    exact ratesLoop_ok fs codes hall

/-- C8 witness: the mocked success payload of `test_returns_correct_data`
(`{"Valute": {"USD": {"Value": 80.0}}}`), and a simulated request failure. -/
theorem C8_witness :
    get_currencies ["USD"] (.response (.ok cbrData)) =
      .ok (["USD"].map fun c => (c, rateOf [("USD", usdEntry)] c)) ∧
    rateOf [("USD", usdEntry)] "USD" = 80 ∧
    get_currencies ["USD"] (.requestError valueErr) =
      .error (.mk "ConnectionError" ("Ошибка при запросе к API: " ++ valueErr.msg)
        (some valueErr) true) := by
  refine ⟨?_, rfl, (C8_failure_taxonomy ["USD"] [] "USD" valueErr cbrData
    [("USD", usdEntry)] []).1⟩
  refine (C8_failure_taxonomy ["USD"] [] "USD" valueErr cbrData
    [("USD", usdEntry)] []).2.2.2.2.2 rfl ?_
  intro c hc
  simp only [List.mem_singleton] at hc
  subst hc
  exact ⟨[("Value", .prim (.float 80))], rfl, rfl⟩

/-- C9: the `except Exception` clause catches only `Exception`-derived
failures.  A target raising a `BaseException` outside `Exception` (such as
`KeyboardInterrupt`) makes the wrapped call emit the start record, emit no
outcome record at all — the log is exactly the single start record — and
propagate that failure unchanged. -/
theorem C9_base_exception_uncaught (h : Handle) (t : Target α β) (x : α)
    (e : PyExc) (hv : HandleValid h) (hr : t.call x = .error e)
    (hb : e.isException = false) :
    wrapper h t x = (.error e, infoEvents h (startMsg t x)) ∧
    (infoEvents h (startMsg t x)).length = 1 :=
  ⟨wrapper_raise_base h t x e hv hr hb, infoEvents_length h (startMsg t x)⟩

/-- C9 witness: the `KeyboardInterrupt`-raising target over the stdout
writer. -/
theorem C9_witness :
    wrapper sysStdout kbTarget () =
      (.error kbExc, infoEvents sysStdout (startMsg kbTarget ())) ∧
    (infoEvents sysStdout (startMsg kbTarget ())).length = 1 :=
  C9_base_exception_uncaught sysStdout kbTarget () kbExc (Or.inr rfl) rfl rfl

/-- C10: on success the returned mapping has exactly the requested codes as
its keys, in order; each stored value is the `float(value)` conversion of
the raw rate (`rateOf`), and a boolean rate passes the numeric check —
`bool` being a subclass of `int` — converting to `1.0` or `0.0` instead of
raising `TypeError`. -/
theorem C10_success_shape :
    (∀ (codes : List String) (resp : HttpOutcome) (m : List (String × ℚ)),
      get_currencies codes resp = .ok m → m.map Prod.fst = codes) ∧
    (∀ b : Bool,
      pyNumeric (some (.prim (.bool b))) = true ∧
      pyFloatOf (some (.prim (.bool b))) = (if b then (1 : ℚ) else 0) ∧
      get_currencies ["USD"] (.response (.ok (boolData b))) =
        .ok [("USD", if b then (1 : ℚ) else 0)]) := by
  constructor
  · exact get_currencies_keys
  · intro b
    refine ⟨rfl, rfl, ?_⟩
    cases b <;> rfl

/-- C10 witness: the success payload yields exactly the requested key, and
a `True` rate value is returned as `1.0`. -/
theorem C10_witness :
    [("USD", (80 : ℚ))].map Prod.fst = ["USD"] ∧
    get_currencies ["USD"] (.response (.ok (boolData true))) =
      .ok [("USD", (1 : ℚ))] :=
  ⟨C10_success_shape.1 ["USD"] (.response (.ok cbrData)) [("USD", (80 : ℚ))] rfl,
   (C10_success_shape.2 true).2.2⟩

end MyLogging
